import Mathlib

/-!
# Garage door controller: a shallow embedding of `garage_door.c`

The C module keeps its state in file-level globals and talks to the hardware
through GPIO reads/writes and one FreeRTOS one-shot software timer.  Here the
globals become the fields of `State`, every C function becomes a function on
`State`, the two sensor reads become an explicit `Levels` argument, and every
call that drives the hardware is appended to the trace `hw`.

Logging calls (`ESP_LOGI`, `ESP_LOGE`) have no effect on the state and are
left out.  Each C function is one atomic step: a timer callback runs between
calls, never in the middle of one.
-/

namespace GarageDoor

/-- Door positions, `garage_door_state_t` of `garage_door.h`. -/
inductive garage_door_state_t where
  | GARAGE_DOOR_OPEN
  | GARAGE_DOOR_CLOSED
  | GARAGE_DOOR_OPENING
  | GARAGE_DOOR_CLOSING
  | GARAGE_DOOR_STOPPED
  deriving DecidableEq, Repr

/-- Commanded destinations, `garage_door_target_state_t` of `garage_door.h`. -/
inductive garage_door_target_state_t where
  | GARAGE_DOOR_TARGET_OPEN
  | GARAGE_DOOR_TARGET_CLOSED
  deriving DecidableEq, Repr

open garage_door_state_t garage_door_target_state_t

/-- Configuration record, `garage_door_config_t` of `garage_door.h`. -/
structure garage_door_config_t where
  relay_gpio : Int
  sensor_open_gpio : Int
  sensor_closed_gpio : Int
  operation_time : Nat
  deriving DecidableEq, Repr

/-- Values returned by the two `gpio_get_level` calls of one sensor read:
the level of the open-limit input and the level of the closed-limit input.
Both inputs are active low. -/
structure Levels where
  open_level : Int
  closed_level : Int
  deriving DecidableEq, Repr

/-- Calls that drive the hardware, in the order the code issues them. -/
inductive HwEvent where
  | gpio_config_output (pin : Int)
  | gpio_config_input (pin_a pin_b : Int)
  | gpio_set_level (pin : Int) (level : Int)
  | vTaskDelay_ms (ms : Nat)
  | xTimerCreate (period_ms : Nat)
  | xTimerReset
  deriving DecidableEq, Repr

/-- The globals of `garage_door.c` together with the state of the timer the
handle refers to and the trace of hardware calls.

* `g_operation_timer` is `true` when the handle is non-NULL.
* `timer_pending` is the activity flag of the one-shot timer: set by
  `xTimerReset`, cleared when the timer expires. -/
structure State where
  g_config : garage_door_config_t
  g_current_state : garage_door_state_t
  g_target_state : garage_door_target_state_t
  g_obstruction_detected : Bool
  g_operation_timer : Bool
  timer_pending : Bool
  hw : List HwEvent
  deriving DecidableEq, Repr

/-- The controller before `garage_door_init`: the static initialisers of the
globals (`g_config` is zero-initialised, the timer handle is NULL). -/
def fresh : State :=
  { g_config := ⟨0, 0, 0, 0⟩
    g_current_state := GARAGE_DOOR_CLOSED
    g_target_state := GARAGE_DOOR_TARGET_CLOSED
    g_obstruction_detected := false
    g_operation_timer := false
    timer_pending := false
    hw := [] }

/-- `trigger_relay`: relay high, 500 ms delay, relay low. -/
def trigger_relay (s : State) : State :=
  { s with hw := s.hw ++
      [ HwEvent.gpio_set_level s.g_config.relay_gpio 1,
        HwEvent.vTaskDelay_ms 500,
        HwEvent.gpio_set_level s.g_config.relay_gpio 0 ] }

/-- `garage_door_update_state`: seed position and target from the sensors;
with neither sensor active nothing is written. -/
def garage_door_update_state (s : State) (lv : Levels) : State :=
  let is_open := lv.open_level == 0
  let is_closed := lv.closed_level == 0
  if is_closed then
    { s with g_current_state := GARAGE_DOOR_CLOSED
             g_target_state := GARAGE_DOOR_TARGET_CLOSED }
  else if is_open then
    { s with g_current_state := GARAGE_DOOR_OPEN
             g_target_state := GARAGE_DOOR_TARGET_OPEN }
  else s

/-- `operation_timer_callback`: optimistic completion of the commanded move. -/
def operation_timer_callback (s : State) : State :=
  if s.g_target_state = GARAGE_DOOR_TARGET_OPEN then
    { s with g_current_state := GARAGE_DOOR_OPEN }
  else
    { s with g_current_state := GARAGE_DOOR_CLOSED }

/-- FreeRTOS `xTimerReset` on the operation timer, the command being accepted
by the timer service: the timer becomes active (restarting its period if it
already was). -/
def xTimerReset (s : State) : State :=
  { s with timer_pending := true, hw := s.hw ++ [HwEvent.xTimerReset] }

/-- `garage_door_set_target_state`. -/
def garage_door_set_target_state (s : State) (target : garage_door_target_state_t) : State :=
  if target = s.g_target_state then s
  else
    let s1 := { s with g_target_state := target }
    let s2 :=
      if target = GARAGE_DOOR_TARGET_OPEN then
        { s1 with g_current_state := GARAGE_DOOR_OPENING }
      else
        { s1 with g_current_state := GARAGE_DOOR_CLOSING }
    let s3 := trigger_relay s2
    if s3.g_operation_timer then xTimerReset s3 else s3

/-- `garage_door_get_current_state`: returns the value and the state after the
call (the call may overwrite `g_current_state`). -/
def garage_door_get_current_state (s : State) (lv : Levels) : garage_door_state_t × State :=
  let is_open := lv.open_level == 0
  let is_closed := lv.closed_level == 0
  let s1 :=
    if is_closed && decide (s.g_current_state ≠ GARAGE_DOOR_CLOSED) then
      { s with g_current_state := GARAGE_DOOR_CLOSED }
    else if is_open && decide (s.g_current_state ≠ GARAGE_DOOR_OPEN) then
      { s with g_current_state := GARAGE_DOOR_OPEN }
    else s
  (s1.g_current_state, s1)

/-- `garage_door_get_target_state`: value and state after the call. -/
def garage_door_get_target_state (s : State) : garage_door_target_state_t × State :=
  (s.g_target_state, s)

/-- `garage_door_get_obstruction_detected`: value and state after the call. -/
def garage_door_get_obstruction_detected (s : State) : Bool × State :=
  (s.g_obstruction_detected, s)

/-- `garage_door_init`.  `config = none` is the NULL pointer; `timer_created`
is whether `xTimerCreate` returned a non-NULL handle; `lv` are the sensor
levels read by the closing `garage_door_update_state`. -/
def garage_door_init (s : State) (config : Option garage_door_config_t)
    (timer_created : Bool) (lv : Levels) : State :=
  match config with
  | none => s
  | some c =>
    let s1 := { s with g_config := c }
    let s2 := { s1 with hw := s1.hw ++
                  [ HwEvent.gpio_config_output s1.g_config.relay_gpio,
                    HwEvent.gpio_set_level s1.g_config.relay_gpio 0,
                    HwEvent.gpio_config_input s1.g_config.sensor_open_gpio
                      s1.g_config.sensor_closed_gpio,
                    HwEvent.xTimerCreate s1.g_config.operation_time ] }
    let s3 := { s2 with g_operation_timer := timer_created, timer_pending := false }
    garage_door_update_state s3 lv

/-- Expiry of the one-shot operation timer: it can only expire while active;
it then becomes dormant and `operation_timer_callback` runs once. -/
def timer_expiry (s : State) : State :=
  if s.timer_pending then operation_timer_callback { s with timer_pending := false }
  else s

/-! ## Sequences of operations -/

/-- Operations available once the controller is running. -/
inductive Op where
  | request (target : garage_door_target_state_t)
  | query (lv : Levels)
  | get_target
  | get_obstruction
  | expiry
  deriving DecidableEq, Repr

/-- One operation applied to the controller. -/
def step (s : State) : Op → State
  | Op.request t => garage_door_set_target_state s t
  | Op.query lv => (garage_door_get_current_state s lv).2
  | Op.get_target => (garage_door_get_target_state s).2
  | Op.get_obstruction => (garage_door_get_obstruction_detected s).2
  | Op.expiry => timer_expiry s

/-- A sequence of operations, oldest first. -/
def run (s : State) (ops : List Op) : State :=
  ops.foldl step s

/-- Operations including (re-)initialisation. -/
inductive Cmd where
  | init (config : Option garage_door_config_t) (timer_created : Bool) (lv : Levels)
  | op (o : Op)
  | stale_callback
  deriving DecidableEq, Repr

/-- One command applied to the controller.  `stale_callback` is
`operation_timer_callback` run by a timer that a later `garage_door_init`
replaced (the old timer is not deleted and may still fire). -/
def stepCmd (s : State) : Cmd → State
  | Cmd.init c tc lv => garage_door_init s c tc lv
  | Cmd.op o => step s o
  | Cmd.stale_callback => operation_timer_callback s

/-- A sequence of commands, oldest first. -/
def runCmds (s : State) (cmds : List Cmd) : State :=
  cmds.foldl stepCmd s

/-- Argument of the most recent `request` in a sequence, if there is one. -/
def lastRequest : List Op → Option garage_door_target_state_t
  | [] => none
  | Op.request t :: rest =>
    match lastRequest rest with
    | some u => some u
    | none => some t
  | _ :: rest => lastRequest rest

/-- Number of times the relay output was driven high in a trace. -/
def relayPulses (relay : Int) (hw : List HwEvent) : Nat :=
  (hw.filter (fun e => decide (e = HwEvent.gpio_set_level relay 1))).length

/-- Number of timer (re)starts in a trace. -/
def timerResets (hw : List HwEvent) : Nat :=
  (hw.filter (fun e => decide (e = HwEvent.xTimerReset))).length

/-- Level of the relay output after a trace of hardware calls, `none` while it
has never been written. -/
def relayLevel (relay : Int) (hw : List HwEvent) : Option Int :=
  hw.foldl (fun acc e =>
    match e with
    | HwEvent.gpio_set_level p l => if p = relay then some l else acc
    | _ => acc) none

/-- The open-limit sensor reads active (low). -/
def openActive (lv : Levels) : Bool := lv.open_level == 0

/-- The closed-limit sensor reads active (low). -/
def closedActive (lv : Levels) : Bool := lv.closed_level == 0

/-- The sensor on the side opposite to target `t` reads active. -/
def contradicts (t : garage_door_target_state_t) (lv : Levels) : Bool :=
  match t with
  | GARAGE_DOOR_TARGET_OPEN => closedActive lv
  | GARAGE_DOOR_TARGET_CLOSED => openActive lv

/-- No position query of the sequence sees an active sensor while the
operation timer is pending. -/
def quietWhilePending : State → List Op → Bool
  | _, [] => true
  | s, o :: rest =>
    (match o with
      | Op.query lv => !s.timer_pending || (!openActive lv && !closedActive lv)
      | _ => true) && quietWhilePending (step s o) rest

/-- No position query of the sequence sees active the sensor opposite to the
target held at the time of the query. -/
def noContradiction : State → List Op → Bool
  | _, [] => true
  | s, o :: rest =>
    (match o with
      | Op.query lv => !contradicts s.g_target_state lv
      | _ => true) && noContradiction (step s o) rest

/-- Position and target point the same way. -/
def agree (s : State) : Bool :=
  match s.g_target_state with
  | GARAGE_DOOR_TARGET_OPEN =>
    decide (s.g_current_state = GARAGE_DOOR_OPEN ∨ s.g_current_state = GARAGE_DOOR_OPENING)
  | GARAGE_DOOR_TARGET_CLOSED =>
    decide (s.g_current_state = GARAGE_DOOR_CLOSED ∨ s.g_current_state = GARAGE_DOOR_CLOSING)

/-- Board wiring of `main.c`: relay on 5, open sensor on 18, closed sensor on
19, 15 s travel time. -/
def mainConfig : garage_door_config_t := ⟨5, 18, 19, 15000⟩

/-- Neither limit switch active. -/
def bothInactive : Levels := ⟨1, 1⟩

/-- Only the closed-limit switch active. -/
def closedOnly : Levels := ⟨1, 0⟩

/-- Only the open-limit switch active. -/
def openOnly : Levels := ⟨0, 1⟩

/-- Both limit switches active. -/
def bothActive : Levels := ⟨0, 0⟩

/-- A state whose timer handle exists and whose in-transit positions are
covered by a pending timer. -/
def transitCovered (s : State) : Prop :=
  s.g_operation_timer = true ∧
  ((s.g_current_state = GARAGE_DOOR_OPENING ∨ s.g_current_state = GARAGE_DOOR_CLOSING) →
    s.timer_pending = true)

/-- A state whose timer handle exists and whose confirmed positions have no
pending timer. -/
def restQuiet (s : State) : Prop :=
  s.g_operation_timer = true ∧
  ((s.g_current_state = GARAGE_DOOR_OPEN ∨ s.g_current_state = GARAGE_DOOR_CLOSED) →
    s.timer_pending = false)

/-- In-transit positions point the way of the target. -/
def transitAgrees (s : State) : Prop :=
  (s.g_current_state = GARAGE_DOOR_OPENING → s.g_target_state = GARAGE_DOOR_TARGET_OPEN) ∧
  (s.g_current_state = GARAGE_DOOR_CLOSING → s.g_target_state = GARAGE_DOOR_TARGET_CLOSED)

/-! ## Single-call properties -/

/-- Effect of a position query on the tracked position, by cases on the
sensor levels and the tracked position. -/
theorem get_current_state_cases (s : State) (lv : Levels) :
    (garage_door_get_current_state s lv).2 =
      { s with g_current_state := (garage_door_get_current_state s lv).1 } ∧
    (closedActive lv = false → openActive lv = false →
      (garage_door_get_current_state s lv).1 = s.g_current_state) ∧
    (closedActive lv = true → s.g_current_state ≠ GARAGE_DOOR_CLOSED →
      (garage_door_get_current_state s lv).1 = GARAGE_DOOR_CLOSED) ∧
    (closedActive lv = true → openActive lv = false →
      (garage_door_get_current_state s lv).1 = GARAGE_DOOR_CLOSED) ∧
    (closedActive lv = false → openActive lv = true →
      (garage_door_get_current_state s lv).1 = GARAGE_DOOR_OPEN) := by
  unfold garage_door_get_current_state closedActive openActive
  rcases s with ⟨c, cur, tg, ob, tm, pd, hw⟩
  cases cur <;> cases h1 : (lv.closed_level == 0) <;> cases h2 : (lv.open_level == 0) <;> simp

/-- A request changes the target to its argument, whatever the state. -/
theorem set_target_state_target (s : State) (t : garage_door_target_state_t) :
    (garage_door_set_target_state s t).g_target_state = t := by
  unfold garage_door_set_target_state trigger_relay xTimerReset
  by_cases h : t = s.g_target_state
  · simp [h]
  · cases t <;> cases hm : s.g_operation_timer <;> simp_all

/-- C1: when the requested target equals the current target,
`garage_door_set_target_state` returns the controller state unchanged: no
relay pulse and no timer reset are added to the hardware trace, the pending
flag, the tracked position, the target and the obstruction flag stay as they
were.  In particular a second `request(Closed)` right after a first one changes
nothing more. -/
theorem set_target_state_same_target_noop (s s0 : State) (t : garage_door_target_state_t)
    (h : (garage_door_get_target_state s).1 = t) :
    garage_door_set_target_state s t = s ∧
    relayPulses s.g_config.relay_gpio (garage_door_set_target_state s t).hw =
      relayPulses s.g_config.relay_gpio s.hw ∧
    timerResets (garage_door_set_target_state s t).hw = timerResets s.hw ∧
    garage_door_set_target_state
        (garage_door_set_target_state s0 GARAGE_DOOR_TARGET_CLOSED) GARAGE_DOOR_TARGET_CLOSED
      = garage_door_set_target_state s0 GARAGE_DOOR_TARGET_CLOSED := by
  have key : ∀ (u : State) (v : garage_door_target_state_t),
      u.g_target_state = v → garage_door_set_target_state u v = u := by
    intro u v hv
    unfold garage_door_set_target_state
    simp [hv]
  have hs : garage_door_set_target_state s t = s := key s t h
  refine ⟨hs, ?_, ?_, ?_⟩
  · rw [hs]
  · rw [hs]
  · exact key _ _ (set_target_state_target s0 GARAGE_DOOR_TARGET_CLOSED)

/-- Instance of C1 on the controller before any command. -/
theorem set_target_state_same_target_noop_witness :
    garage_door_set_target_state fresh GARAGE_DOOR_TARGET_CLOSED = fresh :=
  (set_target_state_same_target_noop fresh fresh GARAGE_DOOR_TARGET_CLOSED rfl).1

/-- C2 (failing input): with the tracked position `Closed` and both limit
switches active, `garage_door_get_current_state` returns `Open`, although the
closed sensor is active and `garage_door_update_state` resolves the very same
levels to `Closed`; a second query on the same levels returns `Closed` again,
so the answer alternates from call to call. -/
theorem get_current_state_both_active_closed :
    (garage_door_init fresh (some mainConfig) true closedOnly).g_current_state
      = GARAGE_DOOR_CLOSED ∧
    closedActive bothActive = true ∧
    (garage_door_get_current_state
      (garage_door_init fresh (some mainConfig) true closedOnly) bothActive).1
      = GARAGE_DOOR_OPEN ∧
    (garage_door_update_state
      (garage_door_init fresh (some mainConfig) true closedOnly) bothActive).g_current_state
      = GARAGE_DOOR_CLOSED ∧
    (garage_door_get_current_state
      (garage_door_get_current_state
        (garage_door_init fresh (some mainConfig) true closedOnly) bothActive).2 bothActive).1
      = GARAGE_DOOR_CLOSED := by
  decide

/-- C4: on a controller whose timer was created, a request for a target other
than the current one sets the target to the argument, sets the tracked
position to `Opening` for `Open` and `Closing` otherwise, appends to the
hardware trace exactly one relay pulse (relay high, 500 ms delay, relay low)
followed by exactly one timer reset, leaves the relay low and the timer
pending, and touches nothing else; the state before may already have the timer
pending. -/
theorem set_target_state_new_target (s : State) (t : garage_door_target_state_t)
    (hinit : s.g_operation_timer = true) (ht : t ≠ (garage_door_get_target_state s).1) :
    (garage_door_set_target_state s t).g_target_state = t ∧
    (garage_door_set_target_state s t).g_current_state =
      (if t = GARAGE_DOOR_TARGET_OPEN then GARAGE_DOOR_OPENING else GARAGE_DOOR_CLOSING) ∧
    (garage_door_set_target_state s t).hw = s.hw ++
      [ HwEvent.gpio_set_level s.g_config.relay_gpio 1,
        HwEvent.vTaskDelay_ms 500,
        HwEvent.gpio_set_level s.g_config.relay_gpio 0,
        HwEvent.xTimerReset ] ∧
    relayPulses s.g_config.relay_gpio (garage_door_set_target_state s t).hw =
      relayPulses s.g_config.relay_gpio s.hw + 1 ∧
    timerResets (garage_door_set_target_state s t).hw = timerResets s.hw + 1 ∧
    relayLevel s.g_config.relay_gpio (garage_door_set_target_state s t).hw = some 0 ∧
    (garage_door_set_target_state s t).timer_pending = true ∧
    (garage_door_set_target_state s t).g_operation_timer = true ∧
    (garage_door_set_target_state s t).g_config = s.g_config ∧
    (garage_door_set_target_state s t).g_obstruction_detected = s.g_obstruction_detected := by
  have hne : t ≠ s.g_target_state := ht
  have hw : (garage_door_set_target_state s t).hw = s.hw ++
      [ HwEvent.gpio_set_level s.g_config.relay_gpio 1,
        HwEvent.vTaskDelay_ms 500,
        HwEvent.gpio_set_level s.g_config.relay_gpio 0,
        HwEvent.xTimerReset ] := by
    unfold garage_door_set_target_state trigger_relay xTimerReset
    cases t <;> simp [hne, hinit]
  refine ⟨set_target_state_target s t, ?_, hw, ?_, ?_, ?_, ?_, ?_, ?_, ?_⟩
  · unfold garage_door_set_target_state trigger_relay xTimerReset
    cases t <;> simp [hne, hinit]
  · rw [hw]; simp [relayPulses, List.filter_append, List.filter_cons]
  · rw [hw]; simp [timerResets, List.filter_append, List.filter_cons]
  · rw [hw]; simp [relayLevel, List.foldl_append]
  · unfold garage_door_set_target_state trigger_relay xTimerReset
    cases t <;> simp [hne, hinit]
  · unfold garage_door_set_target_state trigger_relay xTimerReset
    cases t <;> simp [hne, hinit]
  · unfold garage_door_set_target_state trigger_relay xTimerReset
    cases t <;> simp [hne, hinit]
  · unfold garage_door_set_target_state trigger_relay xTimerReset
    cases t <;> simp [hne, hinit]

/-- Instance of C4 on the controller initialised with the closed switch
active, commanded to open. -/
theorem set_target_state_new_target_witness :
    (garage_door_init fresh (some mainConfig) true closedOnly).g_operation_timer = true ∧
    GARAGE_DOOR_TARGET_OPEN ≠
      (garage_door_get_target_state (garage_door_init fresh (some mainConfig) true closedOnly)).1 ∧
    (garage_door_set_target_state (garage_door_init fresh (some mainConfig) true closedOnly)
      GARAGE_DOOR_TARGET_OPEN).g_target_state = GARAGE_DOOR_TARGET_OPEN ∧
    (garage_door_set_target_state (garage_door_init fresh (some mainConfig) true closedOnly)
      GARAGE_DOOR_TARGET_OPEN).timer_pending = true :=
  ⟨by decide, by decide,
   (set_target_state_new_target (garage_door_init fresh (some mainConfig) true closedOnly)
      GARAGE_DOOR_TARGET_OPEN (by decide) (by decide)).1,
   (set_target_state_new_target (garage_door_init fresh (some mainConfig) true closedOnly)
      GARAGE_DOOR_TARGET_OPEN (by decide) (by decide)).2.2.2.2.2.2.1⟩

/-- C5 (as stated, refuted): the controller is at `Closed` with target
`Closed`, `Open` is requested, and the query that follows reads the closed
switch active: it returns `Closed`, not `Opening`. -/
theorem request_open_then_query_closed_sensor :
    (garage_door_init fresh (some mainConfig) true closedOnly).g_current_state
      = GARAGE_DOOR_CLOSED ∧
    (garage_door_init fresh (some mainConfig) true closedOnly).g_target_state
      = GARAGE_DOOR_TARGET_CLOSED ∧
    (garage_door_get_current_state
      (garage_door_set_target_state (garage_door_init fresh (some mainConfig) true closedOnly)
        GARAGE_DOOR_TARGET_OPEN) closedOnly).1 = GARAGE_DOOR_CLOSED ∧
    (garage_door_get_current_state
      (garage_door_set_target_state (garage_door_init fresh (some mainConfig) true closedOnly)
        GARAGE_DOOR_TARGET_OPEN) closedOnly).1 ≠ GARAGE_DOOR_OPENING := by
  decide

/-- C5 (amended): from position `Closed` and target `Closed`, after a request
for `Open` the next position query returns `Opening` exactly when it reads
neither limit switch active; for all sensor levels the target read after the
query is `Open` and the relay has been pulsed exactly once. -/
theorem request_open_then_query (s : State) (lv : Levels)
    (hc : s.g_current_state = GARAGE_DOOR_CLOSED)
    (ht : s.g_target_state = GARAGE_DOOR_TARGET_CLOSED) :
    ((garage_door_get_current_state
        (garage_door_set_target_state s GARAGE_DOOR_TARGET_OPEN) lv).1 = GARAGE_DOOR_OPENING
      ↔ (openActive lv = false ∧ closedActive lv = false)) ∧
    (garage_door_get_target_state
      (garage_door_get_current_state
        (garage_door_set_target_state s GARAGE_DOOR_TARGET_OPEN) lv).2).1
      = GARAGE_DOOR_TARGET_OPEN ∧
    relayPulses s.g_config.relay_gpio
      (garage_door_get_current_state
        (garage_door_set_target_state s GARAGE_DOOR_TARGET_OPEN) lv).2.hw
      = relayPulses s.g_config.relay_gpio s.hw + 1 := by
  rcases s with ⟨c, cur, tg, ob, tm, pd, hw⟩
  simp only at hc ht
  subst hc ht
  unfold garage_door_get_current_state garage_door_get_target_state
    garage_door_set_target_state trigger_relay xTimerReset openActive closedActive relayPulses
  cases tm <;> cases h1 : (lv.closed_level == 0) <;> cases h2 : (lv.open_level == 0) <;>
    simp [List.filter_append, List.filter_cons]

/-- Instance of C5 (amended) with neither switch active at the query. -/
theorem request_open_then_query_witness :
    (garage_door_init fresh (some mainConfig) true closedOnly).g_current_state
      = GARAGE_DOOR_CLOSED ∧
    (garage_door_init fresh (some mainConfig) true closedOnly).g_target_state
      = GARAGE_DOOR_TARGET_CLOSED ∧
    (garage_door_get_current_state
      (garage_door_set_target_state (garage_door_init fresh (some mainConfig) true closedOnly)
        GARAGE_DOOR_TARGET_OPEN) bothInactive).1 = GARAGE_DOOR_OPENING :=
  ⟨by decide, by decide,
   (request_open_then_query (garage_door_init fresh (some mainConfig) true closedOnly)
      bothInactive (by decide) (by decide)).1.2 (by decide)⟩

/-- C6: `garage_door_init` on the controller's static initial state with a
non-NULL config leaves (position, target) at (`Closed`, `Closed`) when the
closed switch reads active, at (`Open`, `Open`) when only the open switch reads
active, and at the initial (`Closed`, `Closed`) when neither is active; in that
last case the target getter returns `Closed` and a position query that reads
the open switch inactive returns `Closed`. -/
theorem init_fresh_position_target (c : garage_door_config_t) (tc : Bool) (lv lv2 : Levels) :
    (closedActive lv = true →
      (garage_door_init fresh (some c) tc lv).g_current_state = GARAGE_DOOR_CLOSED ∧
      (garage_door_init fresh (some c) tc lv).g_target_state = GARAGE_DOOR_TARGET_CLOSED) ∧
    (closedActive lv = false → openActive lv = true →
      (garage_door_init fresh (some c) tc lv).g_current_state = GARAGE_DOOR_OPEN ∧
      (garage_door_init fresh (some c) tc lv).g_target_state = GARAGE_DOOR_TARGET_OPEN) ∧
    (closedActive lv = false → openActive lv = false →
      (garage_door_init fresh (some c) tc lv).g_current_state = GARAGE_DOOR_CLOSED ∧
      (garage_door_init fresh (some c) tc lv).g_target_state = GARAGE_DOOR_TARGET_CLOSED ∧
      (garage_door_get_target_state (garage_door_init fresh (some c) tc lv)).1
        = GARAGE_DOOR_TARGET_CLOSED ∧
      (openActive lv2 = false →
        (garage_door_get_current_state (garage_door_init fresh (some c) tc lv) lv2).1
          = GARAGE_DOOR_CLOSED)) := by
  unfold garage_door_init garage_door_update_state garage_door_get_target_state
    garage_door_get_current_state fresh openActive closedActive
  cases h1 : (lv.closed_level == 0) <;> cases h2 : (lv.open_level == 0) <;>
    cases h3 : (lv2.closed_level == 0) <;> cases h4 : (lv2.open_level == 0) <;> simp

/-- Instance of C6: boot with neither switch active. -/
theorem init_fresh_position_target_witness :
    closedActive bothInactive = false ∧ openActive bothInactive = false ∧
    (garage_door_init fresh (some mainConfig) true bothInactive).g_current_state
      = GARAGE_DOOR_CLOSED ∧
    (garage_door_init fresh (some mainConfig) true bothInactive).g_target_state
      = GARAGE_DOOR_TARGET_CLOSED :=
  ⟨by decide, by decide,
   ((init_fresh_position_target mainConfig true bothInactive bothInactive).2.2
      (by decide) (by decide)).1,
   ((init_fresh_position_target mainConfig true bothInactive bothInactive).2.2
      (by decide) (by decide)).2.1⟩

/-! ## Sequences of requests and the timer -/

/-- After a non-empty sequence of requests the target is the last argument. -/
theorem foldl_set_target_state_target (s : State) (ts : List garage_door_target_state_t)
    (hne : ts ≠ []) :
    (ts.foldl garage_door_set_target_state s).g_target_state = ts.getLast hne := by
  have hsplit : ts = ts.dropLast ++ [ts.getLast hne] := (List.dropLast_append_getLast hne).symm
  generalize ts.getLast hne = t at hsplit
  rw [hsplit, List.foldl_append]
  simp only [List.foldl_cons, List.foldl_nil]
  exact set_target_state_target _ t

/-- The timer callback writes the position that matches the target. -/
theorem operation_timer_callback_position (s : State) :
    (operation_timer_callback s).g_current_state =
      (if s.g_target_state = GARAGE_DOOR_TARGET_OPEN then GARAGE_DOOR_OPEN
       else GARAGE_DOOR_CLOSED) ∧
    (operation_timer_callback s).g_target_state = s.g_target_state := by
  unfold operation_timer_callback
  by_cases h : s.g_target_state = GARAGE_DOOR_TARGET_OPEN <;> simp [h]

/-- C3 (as stated, refuted): the closed switch stays active throughout, `Open`
is requested once, the timer callback runs, and the position query returns
`Closed` although the last request was `Open`. -/
theorem position_after_expiry_closed_sensor :
    (garage_door_get_current_state
      (operation_timer_callback
        ([GARAGE_DOOR_TARGET_OPEN].foldl garage_door_set_target_state
          (garage_door_init fresh (some mainConfig) true closedOnly))) closedOnly).1
      = GARAGE_DOOR_CLOSED ∧
    ¬ ((garage_door_get_current_state
      (operation_timer_callback
        ([GARAGE_DOOR_TARGET_OPEN].foldl garage_door_set_target_state
          (garage_door_init fresh (some mainConfig) true closedOnly))) closedOnly).1
      = GARAGE_DOOR_OPEN ↔
      [GARAGE_DOOR_TARGET_OPEN].getLast (List.cons_ne_nil _ _) = GARAGE_DOOR_TARGET_OPEN) := by
  decide

/-- C3 (amended): for every controller state and every non-empty sequence of
requests, once `operation_timer_callback` has run after the last request, a
position query that does not read active the switch on the side opposite to
the last request (closed switch inactive after a last `Open`, open switch
inactive after a last `Closed`) returns `Open` if and only if the last request
was `Open`. -/
theorem position_after_expiry (s : State) (ts : List garage_door_target_state_t)
    (hne : ts ≠ []) (lv : Levels) (hlv : contradicts (ts.getLast hne) lv = false) :
    (garage_door_get_current_state
      (operation_timer_callback (ts.foldl garage_door_set_target_state s)) lv).1
      = GARAGE_DOOR_OPEN ↔ ts.getLast hne = GARAGE_DOOR_TARGET_OPEN := by
  have htg := foldl_set_target_state_target s ts hne
  have hcb := (operation_timer_callback_position (ts.foldl garage_door_set_target_state s)).1
  rw [htg] at hcb
  generalize operation_timer_callback (ts.foldl garage_door_set_target_state s) = u at hcb
  generalize ts.getLast hne = t at hlv hcb
  rcases u with ⟨c, cur, tg, ob, tm, pd, hw⟩
  simp only at hcb
  subst hcb
  unfold contradicts openActive closedActive at hlv
  unfold garage_door_get_current_state
  cases t <;> cases h1 : (lv.closed_level == 0) <;> cases h2 : (lv.open_level == 0) <;>
    simp_all

/-- Instance of C3 (amended): `Closed` then `Open` requested, neither switch
active at the query. -/
theorem position_after_expiry_witness :
    contradicts GARAGE_DOOR_TARGET_OPEN bothInactive = false ∧
    ((garage_door_get_current_state
      (operation_timer_callback
        ([GARAGE_DOOR_TARGET_CLOSED, GARAGE_DOOR_TARGET_OPEN].foldl garage_door_set_target_state
          (garage_door_init fresh (some mainConfig) true bothInactive))) bothInactive).1
      = GARAGE_DOOR_OPEN ↔
      [GARAGE_DOOR_TARGET_CLOSED, GARAGE_DOOR_TARGET_OPEN].getLast (List.cons_ne_nil _ _)
        = GARAGE_DOOR_TARGET_OPEN) :=
  ⟨by decide,
   position_after_expiry (garage_door_init fresh (some mainConfig) true bothInactive)
     [GARAGE_DOOR_TARGET_CLOSED, GARAGE_DOOR_TARGET_OPEN] (List.cons_ne_nil _ _) bothInactive
     (by decide)⟩

/-! ## The target under arbitrary interleavings -/

/-- Only a request writes the target. -/
theorem step_target (s : State) (o : Op) :
    (step s o).g_target_state =
      (match o with
       | Op.request t => t
       | _ => s.g_target_state) := by
  cases o with
  | request t => exact set_target_state_target s t
  | query lv =>
    simp only [step]
    rw [(get_current_state_cases s lv).1]
  | get_target => rfl
  | get_obstruction => rfl
  | expiry =>
    simp only [step, timer_expiry]
    by_cases h : s.timer_pending = true
    · simp [h, (operation_timer_callback_position _).2]
    · simp [h]

/-- The target after a sequence is the last requested one, or the initial one
when nothing was requested. -/
theorem run_target (ops : List Op) (s : State) :
    (run s ops).g_target_state = (lastRequest ops).getD s.g_target_state := by
  induction ops generalizing s with
  | nil => rfl
  | cons o rest ih =>
    have hrun : run s (o :: rest) = run (step s o) rest := rfl
    rw [hrun, ih, step_target]
    cases o <;> simp only [lastRequest]
    cases lastRequest rest <;> rfl

/-- C7: after any sequence of requests, position queries, target reads,
obstruction reads and timer expiries (any sensor levels, any starting state)
that contains a request, `garage_door_get_target_state` returns the argument
of the most recent request; and the getter returns its input state unchanged. -/
theorem get_target_state_last_request (s : State) (ops : List Op)
    (t : garage_door_target_state_t) (h : lastRequest ops = some t) :
    (garage_door_get_target_state (run s ops)).1 = t ∧
    (garage_door_get_target_state (run s ops)).2 = run s ops := by
  refine ⟨?_, rfl⟩
  show (run s ops).g_target_state = t
  rw [run_target, h]
  rfl

/-- Instance of C7: open requested, closed switch seen, timer expired, closed
requested, position queried. -/
theorem get_target_state_last_request_witness :
    lastRequest [Op.request GARAGE_DOOR_TARGET_OPEN, Op.query closedOnly, Op.expiry,
      Op.request GARAGE_DOOR_TARGET_CLOSED, Op.get_obstruction, Op.query openOnly]
      = some GARAGE_DOOR_TARGET_CLOSED ∧
    (garage_door_get_target_state
      (run (garage_door_init fresh (some mainConfig) true bothInactive)
        [Op.request GARAGE_DOOR_TARGET_OPEN, Op.query closedOnly, Op.expiry,
         Op.request GARAGE_DOOR_TARGET_CLOSED, Op.get_obstruction, Op.query openOnly])).1
      = GARAGE_DOOR_TARGET_CLOSED :=
  ⟨by decide,
   (get_target_state_last_request (garage_door_init fresh (some mainConfig) true bothInactive)
      [Op.request GARAGE_DOOR_TARGET_OPEN, Op.query closedOnly, Op.expiry,
       Op.request GARAGE_DOOR_TARGET_CLOSED, Op.get_obstruction, Op.query openOnly]
      GARAGE_DOOR_TARGET_CLOSED (by decide)).1⟩

/-! ## Invariants of the reachable states -/

/-- Every operation keeps in-transit positions covered by a pending timer. -/
theorem step_transitCovered (s : State) (o : Op) (h : transitCovered s) :
    transitCovered (step s o) := by
  rcases s with ⟨c, cur, tg, ob, tm, pd, hw⟩
  unfold transitCovered at h ⊢
  simp only at h
  obtain ⟨h1, h2⟩ := h
  subst h1
  cases o with
  | request t =>
    simp only [step, garage_door_set_target_state, trigger_relay, xTimerReset]
    cases t <;> cases tg <;> simp <;> exact h2
  | query lv =>
    simp only [step, garage_door_get_current_state]
    cases cur <;> cases k1 : (lv.closed_level == 0) <;> cases k2 : (lv.open_level == 0) <;>
      simp_all
  | get_target => exact ⟨rfl, h2⟩
  | get_obstruction => exact ⟨rfl, h2⟩
  | expiry =>
    simp only [step, timer_expiry, operation_timer_callback]
    cases pd <;> cases tg <;> simp_all

/-- Sequences keep in-transit positions covered by a pending timer. -/
theorem run_transitCovered (ops : List Op) (s : State) (h : transitCovered s) :
    transitCovered (run s ops) := by
  induction ops generalizing s with
  | nil => exact h
  | cons o rest ih => exact ih (step s o) (step_transitCovered s o h)

/-- Sequences whose queries see no active switch while the timer is pending
keep confirmed positions free of a pending timer. -/
theorem run_restQuiet (ops : List Op) (s : State) (h : restQuiet s)
    (hq : quietWhilePending s ops = true) : restQuiet (run s ops) := by
  induction ops generalizing s with
  | nil => exact h
  | cons o rest ih =>
    simp only [quietWhilePending, Bool.and_eq_true] at hq
    refine ih (step s o) ?_ hq.2
    have hq1 := hq.1
    clear hq ih
    rcases s with ⟨c, cur, tg, ob, tm, pd, hw⟩
    unfold restQuiet at h ⊢
    simp only at h
    obtain ⟨h1, h2⟩ := h
    subst h1
    cases o with
    | request t =>
      simp only [step, garage_door_set_target_state, trigger_relay, xTimerReset]
      cases t <;> cases tg <;> simp <;> exact h2
    | query lv =>
      simp only [openActive, closedActive] at hq1
      simp only [step, garage_door_get_current_state]
      cases cur <;> cases pd <;> cases k1 : (lv.closed_level == 0) <;>
        cases k2 : (lv.open_level == 0) <;> simp_all
    | get_target => exact ⟨rfl, h2⟩
    | get_obstruction => exact ⟨rfl, h2⟩
    | expiry =>
      simp only [step, timer_expiry, operation_timer_callback]
      cases pd <;> cases tg <;> simp_all

/-- State right after initialising the fresh controller. -/
theorem init_fresh_invariants (c : garage_door_config_t) (tc : Bool) (lv : Levels) :
    (garage_door_init fresh (some c) tc lv).g_operation_timer = tc ∧
    (garage_door_init fresh (some c) tc lv).timer_pending = false ∧
    ((garage_door_init fresh (some c) tc lv).g_current_state = GARAGE_DOOR_OPEN ∨
     (garage_door_init fresh (some c) tc lv).g_current_state = GARAGE_DOOR_CLOSED) ∧
    agree (garage_door_init fresh (some c) tc lv) = true := by
  unfold garage_door_init garage_door_update_state fresh agree
  cases h1 : (lv.closed_level == 0) <;> cases h2 : (lv.open_level == 0) <;> simp

/-- C8 (as stated, refuted): after a successful initialise, `Open` is
requested and a position query reads the closed switch active; the tracked
position is then `Closed` while the operation timer is still pending. -/
theorem confirmed_position_timer_pending :
    (run (garage_door_init fresh (some mainConfig) true bothInactive)
      [Op.request GARAGE_DOOR_TARGET_OPEN, Op.query closedOnly]).g_current_state
      = GARAGE_DOOR_CLOSED ∧
    (run (garage_door_init fresh (some mainConfig) true bothInactive)
      [Op.request GARAGE_DOOR_TARGET_OPEN, Op.query closedOnly]).timer_pending = true := by
  decide

/-- C8 (amended): in every state reached from a successful initialise of the
fresh controller by requests, position queries and timer expiries, (a) if no
position query of the sequence read an active switch while the timer was
pending, then a tracked position `Open` or `Closed` implies that the timer is
not pending; and (b) under arbitrary sensor levels a tracked position
`Opening` or `Closing` implies that the timer is pending. -/
theorem position_timer_invariant (c : garage_door_config_t) (lv0 : Levels) (ops : List Op) :
    (quietWhilePending (garage_door_init fresh (some c) true lv0) ops = true →
      ((run (garage_door_init fresh (some c) true lv0) ops).g_current_state = GARAGE_DOOR_OPEN ∨
       (run (garage_door_init fresh (some c) true lv0) ops).g_current_state = GARAGE_DOOR_CLOSED) →
      (run (garage_door_init fresh (some c) true lv0) ops).timer_pending = false) ∧
    (((run (garage_door_init fresh (some c) true lv0) ops).g_current_state = GARAGE_DOOR_OPENING ∨
      (run (garage_door_init fresh (some c) true lv0) ops).g_current_state = GARAGE_DOOR_CLOSING) →
      (run (garage_door_init fresh (some c) true lv0) ops).timer_pending = true) := by
  obtain ⟨ht, hp, hpos, _⟩ := init_fresh_invariants c true lv0
  constructor
  · intro hq
    exact (run_restQuiet ops _ ⟨ht, fun _ => hp⟩ hq).2
  · refine (run_transitCovered ops _ ⟨ht, ?_⟩).2
    intro hcur
    rcases hpos with h | h <;> rcases hcur with h2 | h2 <;> rw [h] at h2 <;> cases h2

/-- Instance of C8 (amended): open requested, queried with no switch active,
timer expired, then the open switch seen. -/
theorem position_timer_invariant_witness :
    quietWhilePending (garage_door_init fresh (some mainConfig) true closedOnly)
      [Op.request GARAGE_DOOR_TARGET_OPEN, Op.query bothInactive, Op.expiry, Op.query openOnly]
      = true ∧
    (run (garage_door_init fresh (some mainConfig) true closedOnly)
      [Op.request GARAGE_DOOR_TARGET_OPEN, Op.query bothInactive, Op.expiry, Op.query openOnly]
      ).g_current_state = GARAGE_DOOR_OPEN ∧
    (run (garage_door_init fresh (some mainConfig) true closedOnly)
      [Op.request GARAGE_DOOR_TARGET_OPEN, Op.query bothInactive, Op.expiry, Op.query openOnly]
      ).timer_pending = false :=
  ⟨by decide, by decide,
   (position_timer_invariant mainConfig closedOnly
      [Op.request GARAGE_DOOR_TARGET_OPEN, Op.query bothInactive, Op.expiry, Op.query openOnly]).1
      (by decide) (Or.inl (by decide))⟩

/-- No command writes `Stopped`. -/
theorem stepCmd_not_stopped (s : State) (cmd : Cmd)
    (h : s.g_current_state ≠ GARAGE_DOOR_STOPPED) :
    (stepCmd s cmd).g_current_state ≠ GARAGE_DOOR_STOPPED := by
  rcases s with ⟨c, cur, tg, ob, tm, pd, hw⟩
  simp only at h
  cases cmd with
  | init cfg tc lv =>
    cases cfg with
    | none => exact h
    | some c2 =>
      simp only [stepCmd, garage_door_init, garage_door_update_state]
      cases k1 : (lv.closed_level == 0) <;> cases k2 : (lv.open_level == 0) <;> simp [h]
  | op o =>
    cases o with
    | request t =>
      simp only [stepCmd, step, garage_door_set_target_state, trigger_relay, xTimerReset]
      cases t <;> cases tg <;> cases tm <;> simp [h]
    | query lv =>
      simp only [stepCmd, step, garage_door_get_current_state]
      cases cur <;> cases k1 : (lv.closed_level == 0) <;> cases k2 : (lv.open_level == 0) <;>
        simp_all
    | get_target => exact h
    | get_obstruction => exact h
    | expiry =>
      simp only [stepCmd, step, timer_expiry, operation_timer_callback]
      cases pd <;> cases tg <;> simp [h]
  | stale_callback =>
    simp only [stepCmd, operation_timer_callback]
    cases tg <;> simp

/-- No sequence of commands writes `Stopped`. -/
theorem runCmds_not_stopped (cmds : List Cmd) (s : State)
    (h : s.g_current_state ≠ GARAGE_DOOR_STOPPED) :
    (runCmds s cmds).g_current_state ≠ GARAGE_DOOR_STOPPED := by
  induction cmds generalizing s with
  | nil => exact h
  | cons cmd rest ih => exact ih (stepCmd s cmd) (stepCmd_not_stopped s cmd h)

/-- C9: in every state reached from the controller's static initial state by
any sequence of initialise calls (NULL or non-NULL config, timer created or
not), requests for `Open` or `Closed`, position queries, getter calls and timer
expiries (also of a timer left over from before a re-initialise), under
arbitrary sensor levels, the tracked position is not `Stopped`,
and a position query made there does not return `Stopped`. -/
theorem stopped_unreachable (cmds : List Cmd) (lv : Levels) :
    (runCmds fresh cmds).g_current_state ≠ GARAGE_DOOR_STOPPED ∧
    (garage_door_get_current_state (runCmds fresh cmds) lv).1 ≠ GARAGE_DOOR_STOPPED := by
  have hfresh : fresh.g_current_state ≠ GARAGE_DOOR_STOPPED := by decide
  refine ⟨runCmds_not_stopped cmds fresh hfresh, ?_⟩
  have h := runCmds_not_stopped (cmds ++ [Cmd.op (Op.query lv)]) fresh hfresh
  simp only [runCmds, List.foldl_append, List.foldl_cons, List.foldl_nil, stepCmd, step] at h
  rw [(get_current_state_cases _ lv).1] at h
  exact h

/-- Every operation keeps in-transit positions pointing at the target. -/
theorem step_transitAgrees (s : State) (o : Op) (h : transitAgrees s) :
    transitAgrees (step s o) := by
  rcases s with ⟨c, cur, tg, ob, tm, pd, hw⟩
  unfold transitAgrees at h ⊢
  simp only at h
  cases o with
  | request t =>
    simp only [step, garage_door_set_target_state, trigger_relay, xTimerReset]
    cases t <;> cases tg <;> cases tm <;> simp_all
  | query lv =>
    simp only [step, garage_door_get_current_state]
    cases cur <;> cases k1 : (lv.closed_level == 0) <;> cases k2 : (lv.open_level == 0) <;>
      simp_all
  | get_target => exact h
  | get_obstruction => exact h
  | expiry =>
    simp only [step, timer_expiry, operation_timer_callback]
    cases pd <;> cases tg <;> simp_all

/-- Sequences keep in-transit positions pointing at the target. -/
theorem run_transitAgrees (ops : List Op) (s : State) (h : transitAgrees s) :
    transitAgrees (run s ops) := by
  induction ops generalizing s with
  | nil => exact h
  | cons o rest ih => exact ih (step s o) (step_transitAgrees s o h)

/-- Sequences whose queries never contradict the target keep position and
target pointing the same way. -/
theorem run_agree (ops : List Op) (s : State) (h : agree s = true)
    (hq : noContradiction s ops = true) : agree (run s ops) = true := by
  induction ops generalizing s with
  | nil => exact h
  | cons o rest ih =>
    simp only [noContradiction, Bool.and_eq_true] at hq
    refine ih (step s o) ?_ hq.2
    have hq1 := hq.1
    clear hq ih
    rcases s with ⟨c, cur, tg, ob, tm, pd, hw⟩
    unfold agree at h ⊢
    cases o with
    | request t =>
      simp only [step, garage_door_set_target_state, trigger_relay, xTimerReset]
      cases t <;> cases tg <;> cases tm <;> simp_all
    | query lv =>
      simp only [contradicts, openActive, closedActive] at hq1
      simp only [step, garage_door_get_current_state]
      cases cur <;> cases tg <;> cases k1 : (lv.closed_level == 0) <;>
        cases k2 : (lv.open_level == 0) <;> simp_all
    | get_target => exact h
    | get_obstruction => exact h
    | expiry =>
      simp only [step, timer_expiry, operation_timer_callback]
      cases pd <;> cases tg <;> simp_all

/-- C10 (as stated, refuted): after initialise, `Open` is requested and a
position query reads the closed switch active; the tracked position is then
`Closed` while the target is `Open`, and a further request for `Open` (the
opposite of the reported position) changes nothing. -/
theorem position_target_disagree :
    (run (garage_door_init fresh (some mainConfig) true bothInactive)
      [Op.request GARAGE_DOOR_TARGET_OPEN, Op.query closedOnly]).g_current_state
      = GARAGE_DOOR_CLOSED ∧
    (run (garage_door_init fresh (some mainConfig) true bothInactive)
      [Op.request GARAGE_DOOR_TARGET_OPEN, Op.query closedOnly]).g_target_state
      = GARAGE_DOOR_TARGET_OPEN ∧
    garage_door_set_target_state
      (run (garage_door_init fresh (some mainConfig) true bothInactive)
        [Op.request GARAGE_DOOR_TARGET_OPEN, Op.query closedOnly]) GARAGE_DOOR_TARGET_OPEN
      = run (garage_door_init fresh (some mainConfig) true bothInactive)
        [Op.request GARAGE_DOOR_TARGET_OPEN, Op.query closedOnly] := by
  decide

/-- C10 (amended): in every state reached from an initialise of the fresh
controller by requests, position queries and timer expiries, (a) if no
position query of the sequence read active the switch on the side opposite to
the target held at that moment, then the tracked position is `Open` or
`Opening` when the target is `Open` and `Closed` or `Closing` when the target
is `Closed`; and (b) under arbitrary sensor levels a tracked `Opening` implies
target `Open` and a tracked `Closing` implies target `Closed`. -/
theorem position_target_invariant (c : garage_door_config_t) (tc : Bool) (lv0 : Levels)
    (ops : List Op) :
    (noContradiction (garage_door_init fresh (some c) tc lv0) ops = true →
      agree (run (garage_door_init fresh (some c) tc lv0) ops) = true) ∧
    ((run (garage_door_init fresh (some c) tc lv0) ops).g_current_state = GARAGE_DOOR_OPENING →
      (run (garage_door_init fresh (some c) tc lv0) ops).g_target_state
        = GARAGE_DOOR_TARGET_OPEN) ∧
    ((run (garage_door_init fresh (some c) tc lv0) ops).g_current_state = GARAGE_DOOR_CLOSING →
      (run (garage_door_init fresh (some c) tc lv0) ops).g_target_state
        = GARAGE_DOOR_TARGET_CLOSED) := by
  obtain ⟨_, _, hpos, hag⟩ := init_fresh_invariants c tc lv0
  refine ⟨fun hq => run_agree ops _ hag hq, ?_⟩
  refine run_transitAgrees ops _ ⟨?_, ?_⟩ <;>
  · intro hcur
    rcases hpos with h | h <;> rw [h] at hcur <;> cases hcur

/-- Instance of C10 (amended): open requested while the closed switch is still
active is a contradicting query, so the instance uses queries that agree with
the target: none active, then the open switch. -/
theorem position_target_invariant_witness :
    noContradiction (garage_door_init fresh (some mainConfig) true closedOnly)
      [Op.request GARAGE_DOOR_TARGET_OPEN, Op.query bothInactive, Op.query openOnly, Op.expiry]
      = true ∧
    agree (run (garage_door_init fresh (some mainConfig) true closedOnly)
      [Op.request GARAGE_DOOR_TARGET_OPEN, Op.query bothInactive, Op.query openOnly, Op.expiry])
      = true :=
  ⟨by decide,
   (position_target_invariant mainConfig true closedOnly
      [Op.request GARAGE_DOOR_TARGET_OPEN, Op.query bothInactive, Op.query openOnly,
       Op.expiry]).1 (by decide)⟩

end GarageDoor
